import Mathlib

/-!
Shallow embedding of `src/frontend/script.js` — the Crop query console.

The script binds a click handler to the ask button. One activation:
trims the question input; if empty, alerts and returns; otherwise reveals
the output container, shows a pending placeholder, clears the query-text
and table regions, issues one POST to the resolved endpoint, and renders
the response (or the error) into the DOM regions.

We model the observable state of one activation (the four DOM regions the
script writes, the alerts raised, the requests issued) and the handler as
a pure state transformer parameterised by the outcome of the `fetch`.
-/

namespace Crop

/-- A parsed JSON object used as a table row: an insertion-ordered
association list from column name to display value, as `JSON.parse`
produces it (`Object.keys` enumerates in this order for string keys). -/
abbrev Row := List (String × String)

/-- The DOM display surface the handler writes: `output.style.display`,
`answerEl.textContent`, `sqlEl.textContent`, `tableEl.innerHTML`. -/
structure Dom where
  outputDisplay : String
  answerText : String
  sqlText : String
  tableHTML : String
deriving Repr, DecidableEq

/-- One outbound HTTP request as the script's `fetch` call issues it:
`fetch(url, { method: "POST", headers: ..., body: JSON.stringify({ question }) })`. -/
structure Request where
  url : String
  method : String
  contentType : String
  question : String
deriving Repr, DecidableEq

/-- Observable state threaded through one activation: the DOM regions,
the alerts raised so far, and the network requests issued so far. -/
structure State where
  dom : Dom
  alerts : List String
  requests : List Request
deriving Repr, DecidableEq

/-- Result of `res.json()` on a response body: either the promise rejects
(malformed JSON; we carry the rejection's message), or it yields a JSON
object carrying the optional fields the script reads — `detail`/`error`
on the error path, `answer`/`sql`/`rows` on the success path. -/
inductive BodyJson where
  | parseFail (msg : String)
  | obj (detail : Option String) (error : Option String)
      (answer : Option String) (sql : Option String)
      (rows : Option (List Row))
deriving Repr, DecidableEq

/-- Outcome of the `fetch` call: transport-level rejection (carrying the
rejection's `err.message`, possibly empty) or an HTTP response with a
status code and a body. -/
inductive FetchOutcome where
  | transportFail (msg : String)
  | response (status : Nat) (body : BodyJson)
deriving Repr, DecidableEq

/-- JS `s.trim()`: strip leading and trailing whitespace characters
(space, tab, newline, carriage return — the whitespace the questions at
issue contain). -/
def jsTrim (s : String) : String :=
  ⟨(((s.data.dropWhile Char.isWhitespace).reverse.dropWhile Char.isWhitespace).reverse)⟩

/-- JS truthiness fallback on a string: `s || d` (only `""` is falsy). -/
def jsOrS (s d : String) : String := if s = "" then d else s

/-- JS truthiness fallback on an optional field: `x || d`, where the field
may be absent (`undefined`, falsy) or present (falsy exactly when `""`). -/
def jsOrField : Option String → String → String
  | none, d => d
  | some s, d => jsOrS s d

/-- The truthy value of an optional string field, if any. -/
def truthy : Option String → Option String
  | none => none
  | some s => if s = "" then none else some s

/-- `errJson.detail || errJson.error` as an optional truthy value. -/
def truthyOr (d e : Option String) : Option String :=
  match truthy d with
  | some m => some m
  | none => truthy e

/-- `res.ok`: per the Fetch specification, status in the range 200–299. -/
def resOk (status : Nat) : Bool := 200 ≤ status && status ≤ 299

/-- The error message built on a non-success status: starts as
`HTTP ${res.status}` and, when the body parses as JSON with a truthy
`detail` or `error` field, appends ` - ${errJson.detail || errJson.error}`;
a parse failure of the error body is swallowed. -/
def errMsgOf (status : Nat) (b : BodyJson) : String :=
  let base := "HTTP " ++ toString status
  match b with
  | .parseFail _ => base
  | .obj d e _ _ _ =>
    match truthyOr d e with
    | some m => base ++ " - " ++ m
    | none => base

/-- `xs.map(f).join("")` of the script: concatenate `f` over the list. -/
def joinedMap (f : α → String) : List α → String
  | [] => ""
  | x :: xs => f x ++ joinedMap f xs

/-- `` `<th>${h}</th>` `` -/
def thCell (h : String) : String := "<th>" ++ h ++ "</th>"

/-- `` `<td>${r[h]}</td>` ``: property lookup on the row object; a missing
key is `undefined`, which the template literal stringifies. -/
def tdCell (r : Row) (h : String) : String :=
  "<td>" ++ (match r.lookup h with | some v => v | none => "undefined") ++ "</td>"

/-- `Object.keys(data.rows[0])`. -/
def rowKeys (r : Row) : List String := r.map Prod.fst

/-- `` `<tr>${headers.map(h => `<td>${r[h]}</td>`).join("")}</tr>` `` -/
def trRow (headers : List String) (r : Row) : String :=
  "<tr>" ++ joinedMap (tdCell r) headers ++ "</tr>"

/-- The no-data placeholder written to `tableEl.innerHTML`. -/
def noDataHTML : String := "<p>No data found.</p>"

/-- The table region content: when `data.rows && data.rows.length > 0`,
the template literal with headers from `Object.keys(data.rows[0])` and one
`<tr>` per record; otherwise the no-data placeholder. The surrounding
whitespace reproduces the template literal exactly. -/
def renderRows : Option (List Row) → String
  | some (r0 :: rest) =>
    "\n        <table>\n          <thead><tr>"
      ++ joinedMap thCell (rowKeys r0)
      ++ "</tr></thead>\n          <tbody>\n            "
      ++ joinedMap (trRow (rowKeys r0)) (r0 :: rest)
      ++ "\n          </tbody>\n        </table>\n      "
  | _ => noDataHTML

/-- `s.includes(pat)` starting check: does `s` begin with `pat`? -/
def listStarts : List Char → List Char → Bool
  | _, [] => true
  | [], _ :: _ => false
  | c :: cs, p :: ps => c == p && listStarts cs ps

/-- Substring occurrence over character lists. -/
def listHasSub : List Char → List Char → Bool
  | [], pat => listStarts [] pat
  | c :: cs, pat => listStarts (c :: cs) pat || listHasSub cs pat

/-- JS `s.includes(pat)`. -/
def strIncludes (s pat : String) : Bool := listHasSub s.data pat.data

/-- `API_URL`, computed once at page load:
`window.location.origin.includes("onrender.com")` selects the same-origin
`/ask` path, otherwise the fixed local address. -/
def API_URL (origin : String) : String :=
  if strIncludes origin "onrender.com" then origin ++ "/ask"
  else "http://127.0.0.1:8000/ask"

/-- The pending-state setup before the fetch: reveal the output container,
put the transient placeholder in the answer region, clear the query-text
and table regions. -/
def pendingState (st : State) : State :=
  { st with dom := { st.dom with
      outputDisplay := "block",
      answerText := "⏳ Thinking...",
      sqlText := "",
      tableHTML := "" } }

/-- Record the single POST request the `fetch` call issues. -/
def issueRequest (url q : String) (st : State) : State :=
  { st with requests := st.requests ++ [⟨url, "POST", "application/json", q⟩] }

/-- The catch block's single DOM write. -/
def setAnswer (st : State) (m : String) : State :=
  { st with dom := { st.dom with answerText := m } }

/-- The generic fallback shown when the caught error's message is falsy. -/
def connectFallback : String := "Error connecting to backend."

/-- Continuation after the fetch resolves: the `res.ok` check with
error-message composition and throw, the success-path rendering, and the
catch block writing `` `❌ ${err.message || "Error connecting to backend."}` ``
to the answer region. -/
def handleOutcome (o : FetchOutcome) (st : State) : State :=
  match o with
  | .transportFail m => setAnswer st ("❌ " ++ jsOrS m connectFallback)
  | .response status b =>
    if resOk status then
      match b with
      | .parseFail m => setAnswer st ("❌ " ++ jsOrS m connectFallback)
      | .obj _ _ a q r =>
        { st with dom := { st.dom with
            answerText := jsOrField a "(no summary)",
            sqlText := jsOrField q "(no SQL returned)",
            tableHTML := renderRows r } }
    else
      setAnswer st ("❌ " ++ jsOrS (errMsgOf status b) connectFallback)

/-- The ask-button click handler, one activation: trim the question; if
empty, alert and return; otherwise run the pending-state setup, issue the
request, and handle the fetch outcome. -/
def askHandler (url qRaw : String) (o : FetchOutcome) (st : State) : State :=
  let q := jsTrim qRaw
  if q = "" then { st with alerts := st.alerts ++ ["Please enter a question first!"] }
  else handleOutcome o (issueRequest url q (pendingState st))

/-- One activation on a page served from `origin`: the handler runs with
the endpoint resolved once at page load. -/
def activate (origin qRaw : String) (o : FetchOutcome) (st : State) : State :=
  askHandler (API_URL origin) qRaw o st

/-- A concrete initial state for witnesses. -/
def st0 : State := ⟨⟨"", "", "", ""⟩, [], []⟩

/-- A concrete initial state with stale content in every region, for
witnesses that exercise the guard's frame property. -/
def stStale : State := ⟨⟨"block", "old answer", "old sql", "old table"⟩, ["past alert"], []⟩

/-! ### Helper lemmas -/

lemma append_ne_empty_left {s : String} (t : String) (h : s ≠ "") : s ++ t ≠ "" := by
  intro he
  apply h
  have hd := congrArg String.data he
  rw [String.data_append] at hd
  exact String.ext (List.append_eq_nil.mp hd).1

lemma errMsgOf_ne_empty (status : Nat) (b : BodyJson) : errMsgOf status b ≠ "" := by
  have hbase : "HTTP " ++ toString status ≠ "" :=
    append_ne_empty_left (toString status) (by decide)
  cases b with
  | parseFail m => simpa [errMsgOf] using hbase
  | obj d e a q r =>
    rcases htr : truthyOr d e with _ | m
    · simpa [errMsgOf, htr] using hbase
    · simpa [errMsgOf, htr] using
        append_ne_empty_left m (append_ne_empty_left " - " hbase)

lemma jsOrS_of_ne {s : String} (d : String) (h : s ≠ "") : jsOrS s d = s := by
  simp [jsOrS, h]

lemma handleOutcome_requests (o : FetchOutcome) (st : State) :
    (handleOutcome o st).requests = st.requests := by
  cases o with
  | transportFail m => rfl
  | response status b =>
    by_cases hs : resOk status
    · cases b <;> simp [handleOutcome, hs, setAnswer]
    · simp [handleOutcome, hs, setAnswer]

lemma jsOrS_ne_empty (s : String) {d : String} (hd : d ≠ "") : jsOrS s d ≠ "" := by
  unfold jsOrS
  split
  · exact hd
  · assumption

/-! ### Claims -/

/-- C1: for every question that is empty after trimming, the activation
raises the blocking alert and returns without issuing any network call. -/
theorem c1_empty_question_no_network (url qRaw : String) (o : FetchOutcome)
    (st : State) (h : jsTrim qRaw = "") :
    (askHandler url qRaw o st).requests = st.requests ∧
    (askHandler url qRaw o st).alerts = st.alerts ++ ["Please enter a question first!"] := by
  simp [askHandler, h]

theorem c1_empty_question_no_network_witness :
    jsTrim "   " = "" ∧
    ((askHandler "u" "   " (.transportFail "") stStale).requests = stStale.requests ∧
     (askHandler "u" "   " (.transportFail "") stStale).alerts
       = stStale.alerts ++ ["Please enter a question first!"]) :=
  ⟨by decide, c1_empty_question_no_network "u" "   " (.transportFail "") stStale (by decide)⟩

/-- C10: an activation aborted by the empty-question guard leaves the whole
visible state unchanged — the output container's display and the answer,
query-text and table regions are exactly as before the activation. -/
theorem c10_empty_question_frame (url qRaw : String) (o : FetchOutcome)
    (st : State) (h : jsTrim qRaw = "") :
    (askHandler url qRaw o st).dom = st.dom := by
  simp [askHandler, h]

theorem c10_empty_question_frame_witness :
    jsTrim " \t " = "" ∧
    (askHandler "u" " \t " (.response 200 (.obj none none none none none)) stStale).dom
      = stStale.dom :=
  ⟨by decide,
   c10_empty_question_frame "u" " \t " (.response 200 (.obj none none none none none))
     stStale (by decide)⟩

/-- C8: for every non-empty trimmed question, the handler factors through
the pending-state setup — output container made visible, transient pending
placeholder in the answer region, query-text and table regions cleared —
followed by the single issued request, before the fetch outcome is
handled. -/
theorem c8_pending_setup_before_request (url qRaw : String) (o : FetchOutcome)
    (st : State) (h : jsTrim qRaw ≠ "") :
    askHandler url qRaw o st
      = handleOutcome o (issueRequest url (jsTrim qRaw) (pendingState st)) ∧
    (pendingState st).dom.outputDisplay = "block" ∧
    (pendingState st).dom.answerText = "⏳ Thinking..." ∧
    (pendingState st).dom.sqlText = "" ∧
    (pendingState st).dom.tableHTML = "" ∧
    (issueRequest url (jsTrim qRaw) (pendingState st)).requests
      = st.requests ++ [⟨url, "POST", "application/json", jsTrim qRaw⟩] := by
  refine ⟨?_, rfl, rfl, rfl, rfl, rfl⟩
  simp [askHandler, h]

theorem c8_pending_setup_before_request_witness :
    jsTrim "hi" ≠ "" ∧
    (askHandler "u" "hi" (.transportFail "") stStale
       = handleOutcome (.transportFail "")
           (issueRequest "u" (jsTrim "hi") (pendingState stStale)) ∧
     (pendingState stStale).dom.outputDisplay = "block" ∧
     (pendingState stStale).dom.answerText = "⏳ Thinking..." ∧
     (pendingState stStale).dom.sqlText = "" ∧
     (pendingState stStale).dom.tableHTML = "" ∧
     (issueRequest "u" (jsTrim "hi") (pendingState stStale)).requests
       = stStale.requests ++ [⟨"u", "POST", "application/json", jsTrim "hi"⟩]) :=
  ⟨by decide, c8_pending_setup_before_request "u" "hi" (.transportFail "") stStale (by decide)⟩

/-- C6: for every transport-level failure the answer region shows the
connectivity error — the error indicator followed by the transport error's
message, or the handler's generic fallback when that message is falsy —
and the query-text and table regions remain empty. -/
theorem c6_transport_failure (url qRaw m : String) (st : State)
    (h : jsTrim qRaw ≠ "") :
    (askHandler url qRaw (.transportFail m) st).dom.answerText
      = "❌ " ++ jsOrS m connectFallback ∧
    (askHandler url qRaw (.transportFail m) st).dom.sqlText = "" ∧
    (askHandler url qRaw (.transportFail m) st).dom.tableHTML = "" ∧
    jsOrS m connectFallback ≠ "" := by
  refine ⟨?_, ?_, ?_, jsOrS_ne_empty m (by decide)⟩ <;>
    simp [askHandler, h, handleOutcome, setAnswer, issueRequest, pendingState]

theorem c6_transport_failure_witness :
    jsTrim "why" ≠ "" ∧
    ((askHandler "u" "why" (.transportFail "") stStale).dom.answerText
       = "❌ " ++ jsOrS "" connectFallback ∧
     (askHandler "u" "why" (.transportFail "") stStale).dom.sqlText = "" ∧
     (askHandler "u" "why" (.transportFail "") stStale).dom.tableHTML = "" ∧
     jsOrS "" connectFallback ≠ "") :=
  ⟨by decide, c6_transport_failure "u" "why" "" stStale (by decide)⟩

/-- C2: on a non-success HTTP status, the failure message combines the
status code with the truthy `detail`-or-`error` text when the body parses
as JSON and one of those fields is present, and falls back to just the
status code when parsing fails or neither is truthy; for an HTTP 500 with
body detail `db down`, the answer region ends up containing both `500`
and `db down`. -/
theorem c2_error_status_message (url qRaw : String) (st : State) (status : Nat)
    (d e a q : Option String) (r : Option (List Row)) (m pm : String)
    (hq : jsTrim qRaw ≠ "") (hs : resOk status = false) :
    (truthyOr d e = some m →
      (askHandler url qRaw (.response status (.obj d e a q r)) st).dom.answerText
        = "❌ " ++ ("HTTP " ++ toString status ++ " - " ++ m)) ∧
    (truthyOr d e = none →
      (askHandler url qRaw (.response status (.obj d e a q r)) st).dom.answerText
        = "❌ " ++ ("HTTP " ++ toString status)) ∧
    (askHandler url qRaw (.response status (.parseFail pm)) st).dom.answerText
      = "❌ " ++ ("HTTP " ++ toString status) ∧
    strIncludes
      ((askHandler url qRaw
          (.response 500 (.obj (some "db down") none none none none)) st).dom.answerText)
      "500" = true ∧
    strIncludes
      ((askHandler url qRaw
          (.response 500 (.obj (some "db down") none none none none)) st).dom.answerText)
      "db down" = true := by
  have key : ∀ (s' : Nat) (b : BodyJson), resOk s' = false →
      (askHandler url qRaw (.response s' b) st).dom.answerText
        = "❌ " ++ errMsgOf s' b := by
    intro s' b hs'
    simp [askHandler, hq, handleOutcome, hs', setAnswer, issueRequest, pendingState,
      jsOrS_of_ne connectFallback (errMsgOf_ne_empty s' b)]
  have key500 := key 500 (.obj (some "db down") none none none none) (by decide)
  refine ⟨?_, ?_, ?_, ?_, ?_⟩
  · intro htr
    rw [key status _ hs]
    simp [errMsgOf, htr]
  · intro htr
    rw [key status _ hs]
    simp [errMsgOf, htr]
  · rw [key status _ hs]
    simp [errMsgOf]
  · rw [key500]; decide
  · rw [key500]; decide

theorem c2_error_status_message_witness :
    (jsTrim "hi" ≠ "" ∧ resOk 500 = false) ∧
    strIncludes
      ((askHandler "u" "hi"
          (.response 500 (.obj (some "db down") none none none none)) stStale).dom.answerText)
      "500" = true ∧
    strIncludes
      ((askHandler "u" "hi"
          (.response 500 (.obj (some "db down") none none none none)) stStale).dom.answerText)
      "db down" = true :=
  ⟨⟨by decide, by decide⟩,
   (c2_error_status_message "u" "hi" stStale 500 (some "db down") none none none none
      "db down" "bad" (by decide) (by decide)).2.2.2.1,
   (c2_error_status_message "u" "hi" stStale 500 (some "db down") none none none none
      "db down" "bad" (by decide) (by decide)).2.2.2.2⟩

/-- C4: on every failure — transport failure, non-success status, or JSON
parse failure of the success body — the answer region is replaced by the
error indicator plus the best-available message, while the query-text and
table regions remain in the cleared (empty) state from the start of the
activation. -/
theorem c4_failure_answer_region_only (url qRaw m pm : String) (status : Nat)
    (b : BodyJson) (st : State) (hq : jsTrim qRaw ≠ "") :
    ((askHandler url qRaw (.transportFail m) st).dom.sqlText = "" ∧
     (askHandler url qRaw (.transportFail m) st).dom.tableHTML = "" ∧
     (askHandler url qRaw (.transportFail m) st).dom.answerText
       = "❌ " ++ jsOrS m connectFallback) ∧
    (resOk status = false →
     (askHandler url qRaw (.response status b) st).dom.sqlText = "" ∧
     (askHandler url qRaw (.response status b) st).dom.tableHTML = "" ∧
     (askHandler url qRaw (.response status b) st).dom.answerText
       = "❌ " ++ errMsgOf status b) ∧
    (resOk status = true →
     (askHandler url qRaw (.response status (.parseFail pm)) st).dom.sqlText = "" ∧
     (askHandler url qRaw (.response status (.parseFail pm)) st).dom.tableHTML = "" ∧
     (askHandler url qRaw (.response status (.parseFail pm)) st).dom.answerText
       = "❌ " ++ jsOrS pm connectFallback) := by
  refine ⟨⟨?_, ?_, ?_⟩, fun hs => ⟨?_, ?_, ?_⟩, fun hs => ⟨?_, ?_, ?_⟩⟩ <;>
    simp_all [askHandler, hq, handleOutcome, setAnswer, issueRequest, pendingState,
      jsOrS_of_ne connectFallback (errMsgOf_ne_empty status b)]

theorem c4_failure_answer_region_only_witness :
    jsTrim "hi" ≠ "" ∧
    ((askHandler "u" "hi" (.transportFail "") stStale).dom.sqlText = "" ∧
     (askHandler "u" "hi" (.transportFail "") stStale).dom.tableHTML = "" ∧
     (askHandler "u" "hi" (.transportFail "") stStale).dom.answerText
       = "❌ " ++ jsOrS "" connectFallback) :=
  ⟨by decide,
   (c4_failure_answer_region_only "u" "hi" "" "bad" 500
      (.obj (some "db down") none none none none) stStale (by decide)).1⟩

/-- C7: on a successful response, an absent `answer` or `sql` field shows
the respective placeholder, and present fields as in `answer = "A"`,
`sql = "S"` are shown verbatim. -/
theorem c7_placeholders_for_absent_fields (url qRaw : String) (st : State)
    (status : Nat) (d e a q : Option String) (r : Option (List Row))
    (hq : jsTrim qRaw ≠ "") (hs : resOk status = true) :
    (a = none →
      (askHandler url qRaw (.response status (.obj d e a q r)) st).dom.answerText
        = "(no summary)") ∧
    (q = none →
      (askHandler url qRaw (.response status (.obj d e a q r)) st).dom.sqlText
        = "(no SQL returned)") ∧
    (askHandler url qRaw (.response status (.obj d e (some "A") (some "S") r)) st).dom.answerText
      = "A" ∧
    (askHandler url qRaw (.response status (.obj d e (some "A") (some "S") r)) st).dom.sqlText
      = "S" := by
  refine ⟨?_, ?_, ?_, ?_⟩
  · intro ha
    subst ha
    simp [askHandler, hq, handleOutcome, hs, issueRequest, pendingState, jsOrField]
  · intro hql
    subst hql
    simp [askHandler, hq, handleOutcome, hs, issueRequest, pendingState, jsOrField]
  · simp [askHandler, hq, handleOutcome, hs, issueRequest, pendingState, jsOrField,
      jsOrS_of_ne "(no summary)" (show "A" ≠ "" by decide)]
  · simp [askHandler, hq, handleOutcome, hs, issueRequest, pendingState, jsOrField,
      jsOrS_of_ne "(no SQL returned)" (show "S" ≠ "" by decide)]

theorem c7_placeholders_for_absent_fields_witness :
    (jsTrim "hi" ≠ "" ∧ resOk 200 = true) ∧
    (askHandler "u" "hi" (.response 200 (.obj none none none none none)) stStale).dom.answerText
      = "(no summary)" ∧
    (askHandler "u" "hi" (.response 200 (.obj none none none none none)) stStale).dom.sqlText
      = "(no SQL returned)" ∧
    (askHandler "u" "hi" (.response 200 (.obj none none (some "A") (some "S") none)) stStale).dom.answerText
      = "A" ∧
    (askHandler "u" "hi" (.response 200 (.obj none none (some "A") (some "S") none)) stStale).dom.sqlText
      = "S" :=
  ⟨⟨by decide, by decide⟩,
   (c7_placeholders_for_absent_fields "u" "hi" stStale 200 none none none none none
      (by decide) (by decide)).1 rfl,
   (c7_placeholders_for_absent_fields "u" "hi" stStale 200 none none none none none
      (by decide) (by decide)).2.1 rfl,
   (c7_placeholders_for_absent_fields "u" "hi" stStale 200 none none none none none
      (by decide) (by decide)).2.2.1,
   (c7_placeholders_for_absent_fields "u" "hi" stStale 200 none none none none none
      (by decide) (by decide)).2.2.2⟩

/-- C9: when `answer` or `sql` is present but equal to the empty string —
falsy in JS — the corresponding placeholder is shown rather than the
field's value, since the code selects the placeholder on falsiness. -/
theorem c9_falsy_fields_get_placeholders (url qRaw : String) (st : State)
    (status : Nat) (d e : Option String) (r : Option (List Row))
    (hq : jsTrim qRaw ≠ "") (hs : resOk status = true) :
    (askHandler url qRaw (.response status (.obj d e (some "") (some "") r)) st).dom.answerText
      = "(no summary)" ∧
    (askHandler url qRaw (.response status (.obj d e (some "") (some "") r)) st).dom.sqlText
      = "(no SQL returned)" := by
  constructor <;>
    simp [askHandler, hq, handleOutcome, hs, issueRequest, pendingState, jsOrField, jsOrS]

theorem c9_falsy_fields_get_placeholders_witness :
    (jsTrim "hi" ≠ "" ∧ resOk 200 = true) ∧
    ((askHandler "u" "hi" (.response 200 (.obj none none (some "") (some "") none)) stStale).dom.answerText
       = "(no summary)" ∧
     (askHandler "u" "hi" (.response 200 (.obj none none (some "") (some "") none)) stStale).dom.sqlText
       = "(no SQL returned)") :=
  ⟨⟨by decide, by decide⟩,
   c9_falsy_fields_get_placeholders "u" "hi" stStale 200 none none none
     (by decide) (by decide)⟩

/-! ### Spec-side table rendering (for the C3 refinement)

These definitions restate §4.1 item 6 of the specification in its own
words: derive the column headers from the key set of the first row, in
backend order; render a header row followed by one row per record, each
cell being the record's value looked up by the header key, a missing key
rendering as undefined; when `rows` is empty or absent, render the
no-data placeholder instead. -/

/-- The spec's cell value: the record's value at the header key, a missing
key rendering as undefined. -/
def specCellValue (r : Row) (h : String) : String :=
  (r.lookup h).getD "undefined"

/-- The spec's header row content: one header cell per column name. -/
def specHeaderCells : List String → String
  | [] => ""
  | h :: hs => "<th>" ++ h ++ "</th>" ++ specHeaderCells hs

/-- The spec's data row content: one cell per header key, read from the
record by that key. -/
def specDataCells (r : Row) : List String → String
  | [] => ""
  | h :: hs => "<td>" ++ specCellValue r h ++ "</td>" ++ specDataCells r hs

/-- The spec's body: one row per record. -/
def specDataRows (headers : List String) : List Row → String
  | [] => ""
  | r :: rs => "<tr>" ++ specDataCells r headers ++ "</tr>" ++ specDataRows headers rs

/-- The spec's table rendering: headers from the keys of the first row in
backend order, a header row then one row per record; empty or absent rows
give the no-data placeholder. -/
def specTableRender : Option (List Row) → String
  | none => "<p>No data found.</p>"
  | some [] => "<p>No data found.</p>"
  | some (r0 :: rest) =>
    "\n        <table>\n          <thead><tr>"
      ++ specHeaderCells (r0.map Prod.fst)
      ++ "</tr></thead>\n          <tbody>\n            "
      ++ specDataRows (r0.map Prod.fst) (r0 :: rest)
      ++ "\n          </tbody>\n        </table>\n      "

lemma joinedMap_thCell_eq (hs : List String) :
    joinedMap thCell hs = specHeaderCells hs := by
  induction hs with
  | nil => rfl
  | cons h t ih => simp [joinedMap, thCell, specHeaderCells, ih]

lemma joinedMap_tdCell_eq (r : Row) (hs : List String) :
    joinedMap (tdCell r) hs = specDataCells r hs := by
  induction hs with
  | nil => rfl
  | cons h t ih =>
    cases hl : r.lookup h with
    | none =>
      simp [joinedMap, tdCell, specDataCells, specCellValue, hl, ih]
      rfl
    | some v =>
      simp [joinedMap, tdCell, specDataCells, specCellValue, hl, ih]

lemma joinedMap_trRow_eq (headers : List String) (rs : List Row) :
    joinedMap (trRow headers) rs = specDataRows headers rs := by
  induction rs with
  | nil => rfl
  | cons r t ih => simp [joinedMap, trRow, specDataRows, ih, joinedMap_tdCell_eq]

lemma renderRows_eq_spec (r? : Option (List Row)) :
    renderRows r? = specTableRender r? := by
  rcases r? with _ | rows
  · rfl
  · rcases rows with _ | ⟨r0, rest⟩
    · rfl
    · simp [renderRows, specTableRender, rowKeys, joinedMap_thCell_eq, joinedMap_trRow_eq]

/-- C3: on a successful response the table region holds exactly the
spec-described rendering — headers are the keys of the first row in backend
order, then one data row per record with cells looked up by header key and
missing keys rendering as undefined; empty or absent `rows` yields the
no-data placeholder, which contains no table structure. -/
theorem c3_table_rendering (url qRaw : String) (st : State) (status : Nat)
    (d e a q : Option String) (r? : Option (List Row))
    (hq : jsTrim qRaw ≠ "") (hs : resOk status = true) :
    (askHandler url qRaw (.response status (.obj d e a q r?)) st).dom.tableHTML
      = specTableRender r? ∧
    specTableRender (some []) = noDataHTML ∧
    specTableRender none = noDataHTML ∧
    strIncludes noDataHTML "<table" = false := by
  refine ⟨?_, rfl, rfl, by decide⟩
  simp [askHandler, hq, handleOutcome, hs, issueRequest, pendingState, renderRows_eq_spec]

theorem c3_table_rendering_witness :
    (jsTrim "hi" ≠ "" ∧ resOk 200 = true) ∧
    ((askHandler "u" "hi"
        (.response 200 (.obj none none none none (some [[("x", "1"), ("y", "2")]])))
        stStale).dom.tableHTML
       = specTableRender (some [[("x", "1"), ("y", "2")]]) ∧
     specTableRender (some []) = noDataHTML ∧
     specTableRender none = noDataHTML ∧
     strIncludes noDataHTML "<table" = false) :=
  ⟨⟨by decide, by decide⟩,
   c3_table_rendering "u" "hi" stStale 200 none none none none
     (some [[("x", "1"), ("y", "2")]]) (by decide) (by decide)⟩

/-- C5: endpoint resolution — an origin containing `onrender.com` resolves
to the same-origin `/ask` path and any other origin to the fixed local
address; every request an activation issues carries this page-load-resolved
value, so the endpoint is immutable across the page's activations. -/
theorem c5_endpoint_resolution (origin qRaw : String) (o : FetchOutcome)
    (st : State) (r : Request)
    (hr : r ∈ (activate origin qRaw o st).requests) :
    (strIncludes origin "onrender.com" = true → API_URL origin = origin ++ "/ask") ∧
    (strIncludes origin "onrender.com" = false →
      API_URL origin = "http://127.0.0.1:8000/ask") ∧
    (r ∈ st.requests ∨ r.url = API_URL origin) := by
  refine ⟨fun h => by simp [API_URL, h], fun h => by simp [API_URL, h], ?_⟩
  by_cases hq : jsTrim qRaw = ""
  · left
    simpa [activate, askHandler, hq] using hr
  · have hr' : r ∈ st.requests ∨
        r = ⟨API_URL origin, "POST", "application/json", jsTrim qRaw⟩ := by
      simpa [activate, askHandler, hq, issueRequest, pendingState,
        handleOutcome_requests, List.mem_append] using hr
    rcases hr' with h1 | h2
    · exact Or.inl h1
    · exact Or.inr (by rw [h2])

theorem c5_endpoint_resolution_witness :
    (⟨"https://crop-dcdl.onrender.com/ask", "POST", "application/json", "hi"⟩ : Request)
      ∈ (activate "https://crop-dcdl.onrender.com" "hi" (.transportFail "") st0).requests ∧
    ((strIncludes "https://crop-dcdl.onrender.com" "onrender.com" = true →
       API_URL "https://crop-dcdl.onrender.com" = "https://crop-dcdl.onrender.com" ++ "/ask") ∧
     (strIncludes "https://crop-dcdl.onrender.com" "onrender.com" = false →
       API_URL "https://crop-dcdl.onrender.com" = "http://127.0.0.1:8000/ask") ∧
     ((⟨"https://crop-dcdl.onrender.com/ask", "POST", "application/json", "hi"⟩ : Request)
        ∈ st0.requests ∨
      (⟨"https://crop-dcdl.onrender.com/ask", "POST", "application/json", "hi"⟩ : Request).url
        = API_URL "https://crop-dcdl.onrender.com")) :=
  ⟨by decide,
   c5_endpoint_resolution "https://crop-dcdl.onrender.com" "hi" (.transportFail "") st0
     ⟨"https://crop-dcdl.onrender.com/ask", "POST", "application/json", "hi"⟩ (by decide)⟩

end Crop
